import Mathlib

/-!
Shallow embedding of the statistical-analysis core of the Aadhaar Pulse
repository, together with proofs about the properties its specification
states.

Numeric values that the TypeScript sources hold as IEEE doubles are
modelled as rationals (`ℚ`): every computation the embedded code performs
on them (comparisons against fixed thresholds, sums, division, absolute
value) is exact at the inputs considered here. CSS colour-class strings
returned by the chart helpers are modelled by small enumerations, one
constructor per distinct string the source can return.
-/

namespace AadharPulse

/-! ## Volatility classification
Embeds `getVolatilityLabel` and `getVolatilityColor` from
`src/frontend/src/components/charts/VolatilityChart.tsx`.  The source
returns a label string together with a text colour; the label is the
volatility level the chart assigns to a region from its coefficient of
variation. -/

/-- The five label strings `getVolatilityLabel` can return. -/
inductive VolLabel where
  | stable
  | low
  | moderate
  | high
  | critical
deriving DecidableEq, Repr

/-- Embedding of `getVolatilityLabel` from `VolatilityChart.tsx` (lines 26-32):
the source returns Critical when cv >= 0.5, High when cv >= 0.3,
Moderate when cv >= 0.2, Low when cv >= 0.1, and Stable otherwise. -/
def getVolatilityLabel (cv : ℚ) : VolLabel :=
  if cv ≥ 1/2 then .critical
  else if cv ≥ 3/10 then .high
  else if cv ≥ 1/5 then .moderate
  else if cv ≥ 1/10 then .low
  else .stable

/-! ## Z-score tier colouring
Embeds `getZScoreColor` and `getZScoreBgColor` from
`src/frontend/src/components/charts/DimensionalAnalysis.tsx` (lines
24-38).  Both branch on `Math.abs(zScore)` with thresholds 3, 2.5, 2. -/

/-- The four colour classes the z-score helpers can return: red for
`text-red-400` / `bg-red-500/20 ...`, orange, yellow, blue likewise. -/
inductive ZColor where
  | red
  | orange
  | yellow
  | blue
deriving DecidableEq, Repr

/-- Embedding of `getZScoreColor` from `DimensionalAnalysis.tsx`:
with absZ = Math.abs(zScore), the source returns the red text class
when absZ >= 3, orange when absZ >= 2.5, yellow when absZ >= 2, and
blue otherwise. -/
def getZScoreColor (z : ℚ) : ZColor :=
  if |z| ≥ 3 then .red
  else if |z| ≥ 5/2 then .orange
  else if |z| ≥ 2 then .yellow
  else .blue

/-- Embedding of `getZScoreBgColor` from `DimensionalAnalysis.tsx`: same thresholds on
`Math.abs(zScore)`, returning the background variants of the same four
colours. -/
def getZScoreBgColor (z : ℚ) : ZColor :=
  if |z| ≥ 3 then .red
  else if |z| ≥ 5/2 then .orange
  else if |z| ≥ 2 then .yellow
  else .blue

/-- Anomaly severity tiers of the statistical path.  The anomaly
engine of the spec assigns only these three tiers; `none` means the value is not
reported as an anomaly at all. -/
inductive SevTier where
  | moderate
  | high
  | critical
deriving DecidableEq, Repr

/-- Modelled from the spec: the severity classification of the Anomaly Engine
(spec section 4.5), whose implementation (the Python analytics backend)
is not present in the repository sources.  "classify severity by |z|:
>=3 critical, >=2.5 high, >=2 moderate; values below 2 are not reported
as anomalies." -/
def classifySeverity (z : ℚ) : Option SevTier :=
  if |z| ≥ 3 then some .critical
  else if |z| ≥ 5/2 then some .high
  else if |z| ≥ 2 then some .moderate
  else none

/-- Numeric rank of a severity tier, `none` (not an anomaly) ranking
below every reported tier; used to state monotonicity. -/
def sevRank : Option SevTier → ℕ
  | none => 0
  | some .moderate => 1
  | some .high => 2
  | some .critical => 3

/-- Numeric rank of a z-score colour: blue below yellow below orange
below red, the order in which `getZScoreColor` escalates. -/
def colorRank : ZColor → ℕ
  | .blue => 0
  | .yellow => 1
  | .orange => 2
  | .red => 3

/-! ## Anomaly list filtering
Embeds the `filteredAnomalies` logic of the `AnomalyList` component and
`severityCounts` (frontend `AnomalyList.tsx`, the file shipped unnamed
in this snapshot).  The `Anomaly` interface of
`src/frontend/src/services/analyticsApi.ts` declares
severity as one of low, medium, high, critical. -/

/-- The four severity values of the frontend `Anomaly` interface. -/
inductive Severity4 where
  | critical
  | high
  | medium
  | low
deriving DecidableEq, Repr

/-- An anomaly record, reduced to the fields `AnomalyList` consults:
its identifier and severity (plus the z-score shown on the card). -/
structure FAnomaly where
  id : ℕ
  severity : Severity4
  z_score : ℚ
deriving DecidableEq, Repr

/-- Embedding of `filteredAnomalies` from `AnomalyList`: with a selected severity
filter, `anomalies.filter(a => a.severity === severityFilter)`;
with no filter selected, the full input list. -/
def filteredAnomalies (anomalies : List FAnomaly)
    (severityFilter : Option Severity4) : List FAnomaly :=
  match severityFilter with
  | some s => anomalies.filter (fun a => decide (a.severity = s))
  | none => anomalies

/-- One entry of `severityCounts` from `AnomalyList`:
`anomalies.filter(a => a.severity === s).length` for each of the four
severities. -/
def countSeverity (anomalies : List FAnomaly) (s : Severity4) : ℕ :=
  (anomalies.filter (fun a => decide (a.severity = s))).length

/-! ## Dimensional slices from outlier clusters
Embeds the `dimensionalSlices` mapping of
`src/frontend/src/components/AnalyticsDashboard.tsx` (lines 453-471),
which converts each backend `OutlierCluster` into the `DimensionalSlice`
shape consumed by `DimensionalAnalysis`.  Dimension keys and values are
modelled by opaque numeric identifiers; the display-only fields
`dimension`, `region` and `time_period` (joined key names and lookups in
the dimension map) are not needed by any claim and are omitted from the
slice record. -/

/-- An `OutlierCluster` as in `analyticsApi.ts` (lines 83-91), with the
numeric fields the mapping reads. -/
structure OutlierClusterE where
  dimensions : List (ℕ × ℕ)
  metric_value : ℚ
  national_mean : ℚ
  z_score : ℚ
  deviation_percentage : ℚ
  sample_size : ℕ
deriving DecidableEq, Repr

/-- A `DimensionalSlice` as built by the dashboard mapping: value,
expected range (low and high bound), z-score and outlier flag. -/
structure DimensionalSliceE where
  value : ℚ
  expected_lo : ℚ
  expected_hi : ℚ
  z_score : ℚ
  is_outlier : Bool
deriving DecidableEq, Repr

/-- The `dimensionalSlices` mapping from `AnalyticsDashboard.tsx`:
`value: cluster.metric_value`,
`expected_range: [cluster.national_mean - (cluster.national_mean * 0.1),
cluster.national_mean + (cluster.national_mean * 0.1)]`,
`z_score: cluster.z_score`,
`is_outlier: Math.abs(cluster.z_score) > 2`. -/
def toDimensionalSlice (c : OutlierClusterE) : DimensionalSliceE :=
  { value := c.metric_value
    expected_lo := c.national_mean - c.national_mean * (1/10)
    expected_hi := c.national_mean + c.national_mean * (1/10)
    z_score := c.z_score
    is_outlier := decide (2 < |c.z_score|) }

/-! ## The Express backend analyzer
Embeds `src/backend/src/services/analyzer.ts`.  `analyzeData` draws two
`Math.random()` values; they are passed here as explicit arguments
`r1 r2 : ℚ` (each in [0,1) at runtime).  The uploaded file influences
nothing, so it is an opaque argument. -/

/-- The three fixed strings of `primaryIssues`. -/
inductive IssueMsg where
  | biometricChildren
  | documentDelays
  | photoRural
deriving DecidableEq, Repr

/-- The four fixed strings of `affectedRegions`. -/
inductive RegionMsg where
  | uttarPradesh
  | bihar
  | maharashtra
  | rajasthan
deriving DecidableEq, Repr

/-- Values of `riskLevel` in `AnalysisResult` in `analyzer.ts`. -/
inductive RiskLevel where
  | low
  | medium
  | high
deriving DecidableEq, Repr

/-- Structure `AnalysisResult` from `analyzer.ts`. -/
structure AnalysisResultE where
  totalRecords : ℤ
  anomaliesDetected : ℤ
  primaryIssues : List IssueMsg
  affectedRegions : List RegionMsg
  riskLevel : RiskLevel
deriving DecidableEq, Repr

/-- Embedding of `analyzeData` from `analyzer.ts` (lines 9-36):
`totalRecords: Math.floor(Math.random() * 100000) + 50000`,
`anomaliesDetected: Math.floor(Math.random() * 1000) + 500`, fixed
issue, region and risk fields.  `file` is the uploaded file, `r1`, `r2`
the two `Math.random()` draws in order. -/
def analyzeData (file : ℕ) (r1 r2 : ℚ) : AnalysisResultE :=
  { totalRecords := ⌊r1 * 100000⌋ + 50000
    anomaliesDetected := ⌊r2 * 1000⌋ + 500
    primaryIssues := [.biometricChildren, .documentDelays, .photoRural]
    affectedRegions := [.uttarPradesh, .bihar, .maharashtra, .rajasthan]
    riskLevel := .high }

/-- Embedding of `detectAnomalies` from `analyzer.ts` (lines 38-45): a placeholder
that returns an empty list for every input. -/
def detectAnomalies (data : List ℚ) : List FAnomaly := []

/-! ## Statistics on a series
Modelled from the spec: the Volatility Engine (spec section 4.3) lives
in the Python analytics backend, which is absent from the repository
sources (only its README is present).  Mean, sample variance
(n-1 denominator) and population variance of the series of
target-metric values of a region, per the definitions in the spec. -/

/-- Mean of a series. -/
def meanQ (l : List ℚ) : ℚ := l.sum / l.length

/-- Modelled from the spec: sample variance, the square of the sample
standard deviation of the spec, with n-1 denominator. -/
def sampleVarQ (l : List ℚ) : ℚ :=
  (l.map (fun x => (x - meanQ l) ^ 2)).sum / ((l.length : ℚ) - 1)

/-- Modelled from the spec: population variance, the square of the
population standard deviation used for the anomaly z-score "over the
relevant population". -/
def popVarQ (l : List ℚ) : ℚ :=
  (l.map (fun x => (x - meanQ l) ^ 2)).sum / (l.length : ℚ)

/-- Scenario C of the spec: eleven months at 100 and one month at
100000. -/
def scenarioC : List ℚ :=
  [100, 100, 100, 100, 100, 100, 100, 100, 100, 100, 100, 100000]

/-! ## Correlation engine
The Correlation Engine itself lives in the Python analytics backend,
absent from the repository sources; the matrix construction is modelled
from the spec (section 4.2).  The in-source part is the
symmetric pair lookup of the `CorrelationMatrix` component,
`findCorrelationDetails`.  Column names are modelled by opaque numeric
identifiers. -/

/-- Sum of products of deviations from the given means, pairing the two
series elementwise (the numerator of the Pearson r, and with `xs = ys`
the sum of squared deviations). -/
def devProdSum (mx my : ℚ) : List ℚ → List ℚ → ℚ
  | x :: xs, y :: ys => (x - mx) * (y - my) + devProdSum mx my xs ys
  | _, _ => 0

/-- Modelled from the spec: the centred cross-product sum of two numeric
columns. -/
def covSumQ (xs ys : List ℚ) : ℚ := devProdSum (meanQ xs) (meanQ ys) xs ys

/-- Modelled from the spec: the Pearson r of two numeric columns,
r = sum((x - mx)(y - my)) / sqrt(sum((x - mx)^2) sum((y - my)^2)). -/
noncomputable def pearsonR (xs ys : List ℚ) : ℝ :=
  (covSumQ xs ys : ℝ) / Real.sqrt ((covSumQ xs xs : ℝ) * (covSumQ ys ys : ℝ))

/-- Modelled from the spec: the full correlation matrix over the numeric
columns — diagonal entries are 1, off-diagonal entries are the Pearson r
of the series of the two columns.  `data` maps a column identifier to its
series. -/
noncomputable def correlationMatrix (data : ℕ → List ℚ) (a b : ℕ) : ℝ :=
  if a = b then 1 else pearsonR (data a) (data b)

/-- A `CorrelationResult` as in `analyticsApi.ts`, reduced to the fields
`findCorrelationDetails` consults plus its numeric payload. -/
structure CorrRecE where
  variable_1 : ℕ
  variable_2 : ℕ
  correlation_coefficient : ℚ
  p_value : ℚ
  is_significant : Bool
deriving DecidableEq, Repr

/-- Embedding of `findCorrelationDetails` from the `CorrelationMatrix` component:
`strongCorrelations.find(c => (c.variable_1 === var1 && c.variable_2 ===
var2) || (c.variable_1 === var2 && c.variable_2 === var1))`. -/
def findCorrelationDetails (strongCorrelations : List CorrRecE)
    (var1 var2 : ℕ) : Option CorrRecE :=
  strongCorrelations.find? (fun c =>
    (c.variable_1 == var1 && c.variable_2 == var2) ||
    (c.variable_1 == var2 && c.variable_2 == var1))

/-! ## Regional volatility CV
Modelled from the spec: the Volatility Engine (section 4.3) computes
CV = sigma / mu per region and, when mu = 0, reports CV as undefined
with an explicit flag instead of dividing by zero.  `none` is that
flag. -/

/-- Modelled from the spec: the guarded coefficient of variation of the
series of a region — undefined (`none`) when the mean is 0, else the
sample standard deviation divided by the mean. -/
noncomputable def computeCV (values : List ℚ) : Option ℝ :=
  if meanQ values = 0 then none
  else some (Real.sqrt (sampleVarQ values) / (meanQ values : ℝ))

/-! ## Polling for analysis completion
Embeds `waitForCompletion` from
`src/frontend/src/services/analyticsApi.ts` (lines 437-464).  The
sequence of `getStatus` responses is an explicit input stream indexed by
poll number; model time starts at 0 and advances by `pollInterval`
milliseconds per sleep, so the k-th poll happens at elapsed time
k * pollInterval and the loop guard `Date.now() - startTime <
maxWaitTime` becomes `k * pollInterval < maxWaitTime`.  Error messages
are opaque values of a type `ε`; the analysis package returned by
`getResults` is an opaque value of a type `π`. -/

/-- The four values of `AnalysisStatusResponse.status`. -/
inductive JobStatus where
  | pending
  | processing
  | completed
  | failed
deriving DecidableEq, Repr

/-- An `AnalysisStatusResponse`, reduced to the fields
`waitForCompletion` consults: `status` and `errors`. -/
structure StatusResp (ε : Type) where
  status : JobStatus
  errors : List ε

/-- Outcome of `waitForCompletion`: the analysis package on success, or
one of the two thrown errors — the failure error carrying the
error messages of the job, or the timeout error. -/
inductive WaitOutcome (ε π : Type) where
  | ok (results : π)
  | failedErr (errors : List ε)
  | timedOut

/-- The polling loop of `waitForCompletion`: at poll k (elapsed time
k * pollInterval), while within `maxWaitTime`, fetch the status; when
it is completed return the results, when it is failed throw the errors
of the job,
otherwise sleep and poll again.  `fuel` bounds the recursion; with
`pollInterval >= 1` a fuel of `maxWaitTime + 1` is never exhausted
before the time guard fails, so exhaustion also yields the timeout. -/
def pollLoop {ε π : Type} (getStat : ℕ → StatusResp ε) (results : π)
    (pollInterval maxWaitTime : ℕ) : ℕ → ℕ → WaitOutcome ε π
  | 0, _ => .timedOut
  | fuel + 1, k =>
    if k * pollInterval < maxWaitTime then
      match (getStat k).status with
      | .completed => .ok results
      | .failed => .failedErr (getStat k).errors
      | _ => pollLoop getStat results pollInterval maxWaitTime fuel (k + 1)
    else .timedOut

/-- Embedding of `waitForCompletion` from `analyticsApi.ts`: poll from time 0. -/
def waitForCompletion {ε π : Type} (getStat : ℕ → StatusResp ε)
    (results : π) (pollInterval maxWaitTime : ℕ) : WaitOutcome ε π :=
  pollLoop getStat results pollInterval maxWaitTime (maxWaitTime + 1) 0

/-- A sample status stream: processing on poll 0, completed from poll 1
on, never any errors. -/
def sampleStatusStream : ℕ → StatusResp ℕ :=
  fun j => if j = 1 then ⟨.completed, []⟩ else ⟨.processing, []⟩

/-- A sample failing status stream: pending on poll 0, failed from poll
1 on with the single error message 42. -/
def sampleFailStream : ℕ → StatusResp ℕ :=
  fun j => if j = 1 then ⟨.failed, [42]⟩ else ⟨.pending, []⟩

end AadharPulse

namespace AadharPulse

/-- Helper: characterization of the critical severity tier. -/
lemma classify_critical_iff (z : ℚ) :
    classifySeverity z = some .critical ↔ 3 ≤ |z| := by
  unfold classifySeverity
  split_ifs <;> simp_all

/-- Helper: characterization of the high severity tier. -/
lemma classify_high_iff (z : ℚ) :
    classifySeverity z = some .high ↔ 5/2 ≤ |z| ∧ |z| < 3 := by
  unfold classifySeverity
  split_ifs with h1 h2 h3
  · simp only [Option.some.injEq, reduceCtorEq, false_iff, not_and, not_lt]
    intro
    linarith
  · simp only [Option.some.injEq, true_iff]
    exact ⟨h2, lt_of_not_le h1⟩
  · simp only [Option.some.injEq, reduceCtorEq, false_iff, not_and, not_lt]
    intro h
    exact absurd h h2
  · simp only [reduceCtorEq, false_iff, not_and, not_lt]
    intro h
    exact absurd h (fun hle => h2 (by linarith))

/-- Helper: characterization of the moderate severity tier. -/
lemma classify_moderate_iff (z : ℚ) :
    classifySeverity z = some .moderate ↔ 2 ≤ |z| ∧ |z| < 5/2 := by
  unfold classifySeverity
  split_ifs with h1 h2 h3
  · simp only [Option.some.injEq, reduceCtorEq, false_iff, not_and, not_lt]
    intro
    linarith
  · simp only [Option.some.injEq, reduceCtorEq, false_iff, not_and, not_lt]
    intro
    linarith
  · simp only [Option.some.injEq, true_iff]
    exact ⟨h3, lt_of_not_le h2⟩
  · simp only [reduceCtorEq, false_iff, not_and, not_lt]
    intro h
    exact absurd h h3

/-- Helper: a z-score is not reported as an anomaly exactly when
|z| < 2. -/
lemma classify_none_iff (z : ℚ) :
    classifySeverity z = none ↔ |z| < 2 := by
  unfold classifySeverity
  split_ifs with h1 h2 h3
  · simp only [reduceCtorEq, false_iff, not_lt]
    linarith
  · simp only [reduceCtorEq, false_iff, not_lt]
    linarith
  · simp only [reduceCtorEq, false_iff, not_lt]
    linarith
  · simp only [true_iff]
    exact lt_of_not_le h3

/-- Claim C1: `getVolatilityLabel` classifies a coefficient of variation
by fixed thresholds — critical iff cv >= 0.5, high iff 0.3 <= cv < 0.5,
moderate iff 0.2 <= cv < 0.3, low iff 0.1 <= cv < 0.2, stable iff
cv < 0.1 — and every one of the five levels is attained, so the set of
possible volatility levels is exactly
{stable, low, moderate, high, critical}. -/
theorem volatility_label_thresholds (cv : ℚ) :
    (getVolatilityLabel cv = .critical ↔ 1/2 ≤ cv) ∧
    (getVolatilityLabel cv = .high ↔ 3/10 ≤ cv ∧ cv < 1/2) ∧
    (getVolatilityLabel cv = .moderate ↔ 1/5 ≤ cv ∧ cv < 3/10) ∧
    (getVolatilityLabel cv = .low ↔ 1/10 ≤ cv ∧ cv < 1/5) ∧
    (getVolatilityLabel cv = .stable ↔ cv < 1/10) ∧
    (∀ l : VolLabel, ∃ q : ℚ, getVolatilityLabel q = l) := by
  refine ⟨?_, ?_, ?_, ?_, ?_, ?_⟩
  · unfold getVolatilityLabel
    split_ifs with h1 h2 h3 h4 <;> simp_all <;> linarith
  · unfold getVolatilityLabel
    split_ifs with h1 h2 h3 h4 <;> simp_all <;> intro h <;> linarith
  · unfold getVolatilityLabel
    split_ifs with h1 h2 h3 h4 <;> simp_all <;> intro h <;> linarith
  · unfold getVolatilityLabel
    split_ifs with h1 h2 h3 h4 <;> simp_all <;> intro h <;> linarith
  · unfold getVolatilityLabel
    split_ifs with h1 h2 h3 h4 <;> simp_all <;> linarith
  · intro l
    cases l
    · exact ⟨0, by norm_num [getVolatilityLabel]⟩
    · exact ⟨1/10, by norm_num [getVolatilityLabel]⟩
    · exact ⟨1/5, by norm_num [getVolatilityLabel]⟩
    · exact ⟨3/10, by norm_num [getVolatilityLabel]⟩
    · exact ⟨1/2, by norm_num [getVolatilityLabel]⟩

/-- Claim C2: the anomaly severity assigned to a z-score z is critical
iff |z| >= 3, high iff 2.5 <= |z| < 3, moderate iff 2 <= |z| < 2.5, and
a value with |z| < 2 is not reported as an anomaly at all; any severity
that is reported is one of the three tiers moderate, high, critical (no
low or medium tier appears), and the z-score colouring of the repository,
`getZScoreColor` escalates to red, orange, yellow at exactly the
critical, high, moderate boundaries. -/
theorem anomaly_severity_thresholds (z : ℚ) :
    (classifySeverity z = some .critical ↔ 3 ≤ |z|) ∧
    (classifySeverity z = some .high ↔ 5/2 ≤ |z| ∧ |z| < 3) ∧
    (classifySeverity z = some .moderate ↔ 2 ≤ |z| ∧ |z| < 5/2) ∧
    (|z| < 2 → classifySeverity z = none) ∧
    (∀ s, classifySeverity z = some s →
      s = .moderate ∨ s = .high ∨ s = .critical) ∧
    ((classifySeverity z = some .critical ↔ getZScoreColor z = .red) ∧
     (classifySeverity z = some .high ↔ getZScoreColor z = .orange) ∧
     (classifySeverity z = some .moderate ↔ getZScoreColor z = .yellow) ∧
     (classifySeverity z = none ↔ getZScoreColor z = .blue)) :=
  ⟨classify_critical_iff z, classify_high_iff z, classify_moderate_iff z,
   fun h => (classify_none_iff z).mpr h,
   fun s _ => by cases s <;> simp,
   by
    unfold classifySeverity getZScoreColor
    split_ifs <;> simp,
   by
    unfold classifySeverity getZScoreColor
    split_ifs <;> simp,
   by
    unfold classifySeverity getZScoreColor
    split_ifs <;> simp,
   by
    unfold classifySeverity getZScoreColor
    split_ifs <;> simp⟩

/-- Witness for C2 at z = 1: |1| < 2 and the code reports no anomaly
there. -/
theorem anomaly_severity_thresholds_witness :
    classifySeverity 1 = none :=
  (anomaly_severity_thresholds 1).2.2.2.1 (by norm_num)

/-- Claim C4: severity classification is monotonic in |z|: if
|z1| <= |z2| then the tier assigned to z1 (ranked
none < moderate < high < critical) is at most the tier assigned to z2,
and likewise the z-score colour rank (blue < yellow < orange < red)
assigned by `getZScoreColor` and `getZScoreBgColor` never decreases. -/
theorem severity_monotone (z1 z2 : ℚ) (h : |z1| ≤ |z2|) :
    sevRank (classifySeverity z1) ≤ sevRank (classifySeverity z2) ∧
    colorRank (getZScoreColor z1) ≤ colorRank (getZScoreColor z2) ∧
    colorRank (getZScoreBgColor z1) ≤ colorRank (getZScoreBgColor z2) := by
  unfold classifySeverity getZScoreColor getZScoreBgColor
  split_ifs with h1 h2 h3 h4 h5 h6 <;> simp [sevRank, colorRank] <;> linarith

/-- Witness for C4 at z1 = 1, z2 = 5. -/
theorem severity_monotone_witness :
    sevRank (classifySeverity 1) ≤ sevRank (classifySeverity 5) ∧
    colorRank (getZScoreColor 1) ≤ colorRank (getZScoreColor 5) ∧
    colorRank (getZScoreBgColor 1) ≤ colorRank (getZScoreBgColor 5) :=
  severity_monotone 1 5 (by norm_num)

/-- Claim C9: for every anomaly list and every selected severity filter,
the displayed list is exactly the input anomalies whose severity equals
the filter (the full input list when no filter is selected, preserving
order and multiplicity), and the four per-severity counts each equal
the number of input anomalies of that severity, so they sum to the
input length. -/
theorem anomaly_list_filter_exact (anomalies : List FAnomaly)
    (s : Severity4) :
    (∀ a, a ∈ filteredAnomalies anomalies (some s) ↔
      a ∈ anomalies ∧ a.severity = s) ∧
    filteredAnomalies anomalies (some s)
      = anomalies.filter (fun a => decide (a.severity = s)) ∧
    filteredAnomalies anomalies none = anomalies ∧
    (countSeverity anomalies s
      = (anomalies.map FAnomaly.severity).count s) ∧
    countSeverity anomalies .critical + countSeverity anomalies .high +
      countSeverity anomalies .medium + countSeverity anomalies .low
      = anomalies.length := by
  refine ⟨?_, rfl, rfl, ?_, ?_⟩
  · intro a
    simp [filteredAnomalies, List.mem_filter]
  · rw [countSeverity, ← List.countP_eq_length_filter,
      List.count_eq_countP, List.countP_map]
    apply List.countP_congr
    intro x hx
    simp [beq_iff_eq]
  · induction anomalies with
    | nil => simp [countSeverity]
    | cons a t ih =>
      cases h : a.severity <;>
        simp [countSeverity, List.filter, h] at ih ⊢ <;>
        omega

/-- Claim C3 counterexample: for the cluster with national_mean 100,
metric_value 130 and z_score 3 (hence implied population std 10), the
dashboard mapping reports expected_range [90, 110], which is not
[mean - 2 std, mean + 2 std] = [80, 120]. -/
theorem expected_range_counterexample :
    (toDimensionalSlice ⟨[(0, 0)], 130, 100, 3, 30, 20⟩).expected_lo = 90 ∧
    (toDimensionalSlice ⟨[(0, 0)], 130, 100, 3, 30, 20⟩).expected_hi = 110 ∧
    (90 : ℚ) ≠ 100 - 2 * 10 ∧
    (110 : ℚ) ≠ 100 + 2 * 10 := by
  refine ⟨?_, ?_, by norm_num, by norm_num⟩ <;>
    simp [toDimensionalSlice] <;> norm_num

/-- Claim C3 as amended: for every cluster, the reported expected_range
equals [national_mean - 10% of national_mean, national_mean + 10% of
national_mean], and is_outlier is true iff |z| exceeds the fixed
threshold 2. -/
theorem expected_range_amended (c : OutlierClusterE) :
    (toDimensionalSlice c).expected_lo = c.national_mean * (9/10) ∧
    (toDimensionalSlice c).expected_hi = c.national_mean * (11/10) ∧
    ((toDimensionalSlice c).is_outlier = true ↔ 2 < |c.z_score|) := by
  refine ⟨?_, ?_, ?_⟩ <;> simp [toDimensionalSlice] <;> ring

/-- Claim C5 fails on the code: `analyzeData` derives totalRecords and
anomaliesDetected from `Math.random()`, so two runs on the identical
file (here file 0) with different random draws give different outputs:
draws 0 give totalRecords 50000, draws 1/2 give 100000. -/
theorem analyze_data_nondeterministic :
    analyzeData 0 0 0 ≠ analyzeData 0 (1/2) (1/2) ∧
    (analyzeData 0 0 0).totalRecords = 50000 ∧
    (analyzeData 0 (1/2) (1/2)).totalRecords = 100000 ∧
    (analyzeData 0 0 0).anomaliesDetected = 500 ∧
    (analyzeData 0 (1/2) (1/2)).anomaliesDetected = 1000 := by
  refine ⟨?_, ?_, ?_, ?_, ?_⟩ <;>
    simp [analyzeData, AnalysisResultE.mk.injEq] <;>
    norm_num [Int.floor_eq_iff]

/-- Claim C6 fails on the code: for the Scenario C series the
mathematical facts hold — the mean is positive, the sample coefficient
of variation exceeds 0.5 (equivalently 4 sigma-squared exceeds
mu-squared), and the deviation of the extreme month from the mean is at
least 3 population standard deviations (z >= 3) — yet `detectAnomalies`
returns the empty list, reporting no anomaly at all. -/
theorem scenario_c_detects_nothing :
    0 < meanQ scenarioC ∧
    (meanQ scenarioC) ^ 2 < 4 * sampleVarQ scenarioC ∧
    9 * popVarQ scenarioC ≤ (100000 - meanQ scenarioC) ^ 2 ∧
    detectAnomalies scenarioC = [] := by
  refine ⟨?_, ?_, ?_, rfl⟩ <;>
    norm_num [meanQ, sampleVarQ, popVarQ, scenarioC]

/-- Helper: the centred cross-product sum is symmetric in its two
series. -/
lemma devProdSum_comm (mx my : ℚ) :
    ∀ xs ys : List ℚ, devProdSum mx my xs ys = devProdSum my mx ys xs := by
  intro xs
  induction xs with
  | nil =>
    intro ys
    cases ys <;> simp [devProdSum]
  | cons x xs ih =>
    intro ys
    cases ys with
    | nil => simp [devProdSum]
    | cons y ys =>
      simp only [devProdSum, ih]
      ring

/-- Claim C7: the correlation matrix is symmetric and has unit diagonal,
and the in-source pair lookup `findCorrelationDetails` is symmetric in
its two column arguments. -/
theorem correlation_matrix_symm (data : ℕ → List ℚ) (a b : ℕ)
    (strongCorrelations : List CorrRecE) (v w : ℕ) :
    correlationMatrix data a b = correlationMatrix data b a ∧
    correlationMatrix data a a = 1 ∧
    findCorrelationDetails strongCorrelations v w
      = findCorrelationDetails strongCorrelations w v := by
  refine ⟨?_, ?_, ?_⟩
  · unfold correlationMatrix
    by_cases h : a = b
    · simp [h]
    · rw [if_neg h, if_neg (fun hc => h hc.symm)]
      unfold pearsonR covSumQ
      rw [devProdSum_comm (meanQ (data a)) (meanQ (data b))]
      rw [mul_comm ((devProdSum (meanQ (data a)) (meanQ (data a))
        (data a) (data a) : ℚ) : ℝ)]
  · simp [correlationMatrix]
  · unfold findCorrelationDetails
    congr 1
    funext c
    rw [Bool.or_comm]

/-- Helper: if the polling loop returns the results package, some poll
within the time limit observed status completed, every earlier poll
observed neither terminal status, and the returned package is exactly
the one `getResults` yields. -/
lemma pollLoop_ok_elim {ε π : Type} (getStat : ℕ → StatusResp ε)
    (results : π) (pollInterval maxWaitTime : ℕ) :
    ∀ fuel k r, pollLoop getStat results pollInterval maxWaitTime fuel k
        = .ok r →
      r = results ∧ ∃ j, k ≤ j ∧ j * pollInterval < maxWaitTime ∧
        (getStat j).status = .completed ∧
        ∀ i, k ≤ i → i < j → (getStat i).status ≠ .completed ∧
          (getStat i).status ≠ .failed := by
  intro fuel
  induction fuel with
  | zero =>
    intro k r h
    simp [pollLoop] at h
  | succ fuel ih =>
    intro k r h
    rw [pollLoop] at h
    by_cases hg : k * pollInterval < maxWaitTime
    · rw [if_pos hg] at h
      cases hs : (getStat k).status <;> rw [hs] at h
      · have ⟨hr, j, hkj, hjt, hjc, hpre⟩ := ih (k + 1) r h
        refine ⟨hr, j, by omega, hjt, hjc, fun i hki hij => ?_⟩
        by_cases hik : i = k
        · subst hik
          simp [hs]
        · exact hpre i (by omega) hij
      · have ⟨hr, j, hkj, hjt, hjc, hpre⟩ := ih (k + 1) r h
        refine ⟨hr, j, by omega, hjt, hjc, fun i hki hij => ?_⟩
        by_cases hik : i = k
        · subst hik
          simp [hs]
        · exact hpre i (by omega) hij
      · cases h
        exact ⟨rfl, k, le_refl k, hg, hs, fun i hki hik => by omega⟩
      · cases h
    · rw [if_neg hg] at h
      cases h

/-- Helper: if the polling loop throws the failure error, some poll
within the time limit observed status failed, every earlier poll
observed neither terminal status, and the thrown error carries exactly
the error messages of that poll. -/
lemma pollLoop_failed_elim {ε π : Type} (getStat : ℕ → StatusResp ε)
    (results : π) (pollInterval maxWaitTime : ℕ) :
    ∀ fuel k msgs,
      pollLoop getStat results pollInterval maxWaitTime fuel k
        = .failedErr msgs →
      ∃ j, k ≤ j ∧ j * pollInterval < maxWaitTime ∧
        (getStat j).status = .failed ∧ msgs = (getStat j).errors ∧
        ∀ i, k ≤ i → i < j → (getStat i).status ≠ .completed ∧
          (getStat i).status ≠ .failed := by
  intro fuel
  induction fuel with
  | zero =>
    intro k msgs h
    simp [pollLoop] at h
  | succ fuel ih =>
    intro k msgs h
    rw [pollLoop] at h
    by_cases hg : k * pollInterval < maxWaitTime
    · rw [if_pos hg] at h
      cases hs : (getStat k).status <;> rw [hs] at h
      · have ⟨j, hkj, hjt, hjf, hmsg, hpre⟩ := ih (k + 1) msgs h
        refine ⟨j, by omega, hjt, hjf, hmsg, fun i hki hij => ?_⟩
        by_cases hik : i = k
        · subst hik
          simp [hs]
        · exact hpre i (by omega) hij
      · have ⟨j, hkj, hjt, hjf, hmsg, hpre⟩ := ih (k + 1) msgs h
        refine ⟨j, by omega, hjt, hjf, hmsg, fun i hki hij => ?_⟩
        by_cases hik : i = k
        · subst hik
          simp [hs]
        · exact hpre i (by omega) hij
      · cases h
      · cases h
        exact ⟨k, le_refl k, hg, hs, rfl, fun i hki hik => by omega⟩
    · rw [if_neg hg] at h
      cases h

/-- Helper: if no poll within the time limit observes a terminal
status, the polling loop throws the timeout error. -/
lemma pollLoop_timeout_intro {ε π : Type} (getStat : ℕ → StatusResp ε)
    (results : π) (pollInterval maxWaitTime : ℕ)
    (hnt : ∀ j, j * pollInterval < maxWaitTime →
      (getStat j).status ≠ .completed ∧ (getStat j).status ≠ .failed) :
    ∀ fuel k, pollLoop getStat results pollInterval maxWaitTime fuel k
      = .timedOut := by
  intro fuel
  induction fuel with
  | zero =>
    intro k
    rw [pollLoop]
  | succ fuel ih =>
    intro k
    rw [pollLoop]
    by_cases hg : k * pollInterval < maxWaitTime
    · rw [if_pos hg]
      cases hs : (getStat k).status
      · exact ih (k + 1)
      · exact ih (k + 1)
      · exact absurd hs (hnt k hg).1
      · exact absurd hs (hnt k hg).2
    · rw [if_neg hg]

/-- Helper: if poll j is within the time limit, observes status failed,
and no poll from k up to j observed a terminal status, then the polling
loop started at poll k with more than j - k fuel throws the failure
error carrying the error messages of poll j — it does not time out. -/
lemma pollLoop_failed_intro {ε π : Type} (getStat : ℕ → StatusResp ε)
    (results : π) (pollInterval maxWaitTime : ℕ) :
    ∀ fuel k j, k ≤ j → j * pollInterval < maxWaitTime →
      j - k < fuel → (getStat j).status = .failed →
      (∀ i, k ≤ i → i < j → (getStat i).status ≠ .completed ∧
        (getStat i).status ≠ .failed) →
      pollLoop getStat results pollInterval maxWaitTime fuel k
        = .failedErr (getStat j).errors := by
  intro fuel
  induction fuel with
  | zero =>
    intro k j hkj hjt hfuel hjf hpre
    omega
  | succ fuel ih =>
    intro k j hkj hjt hfuel hjf hpre
    rw [pollLoop]
    have hg : k * pollInterval < maxWaitTime :=
      lt_of_le_of_lt (Nat.mul_le_mul_right pollInterval hkj) hjt
    rw [if_pos hg]
    by_cases hk : k = j
    · subst hk
      rw [hjf]
    · have hlt : k < j := lt_of_le_of_ne hkj hk
      have hknt := hpre k (le_refl k) hlt
      cases hs : (getStat k).status
      · exact ih (k + 1) j (by omega) hjt (by omega) hjf
          (fun i h1 h2 => hpre i (by omega) h2)
      · exact ih (k + 1) j (by omega) hjt (by omega) hjf
          (fun i h1 h2 => hpre i (by omega) h2)
      · exact absurd hs hknt.1
      · exact absurd hs hknt.2

/-- Helper: if poll j is within the time limit, observes status
completed, and no poll from k up to j observed a terminal status, then
the polling loop started at poll k with more than j - k fuel returns the
results package — it does not time out. -/
lemma pollLoop_completed_intro {ε π : Type} (getStat : ℕ → StatusResp ε)
    (results : π) (pollInterval maxWaitTime : ℕ) :
    ∀ fuel k j, k ≤ j → j * pollInterval < maxWaitTime →
      j - k < fuel → (getStat j).status = .completed →
      (∀ i, k ≤ i → i < j → (getStat i).status ≠ .completed ∧
        (getStat i).status ≠ .failed) →
      pollLoop getStat results pollInterval maxWaitTime fuel k
        = .ok results := by
  intro fuel
  induction fuel with
  | zero =>
    intro k j hkj hjt hfuel hjf hpre
    omega
  | succ fuel ih =>
    intro k j hkj hjt hfuel hjf hpre
    rw [pollLoop]
    have hg : k * pollInterval < maxWaitTime :=
      lt_of_le_of_lt (Nat.mul_le_mul_right pollInterval hkj) hjt
    rw [if_pos hg]
    by_cases hk : k = j
    · subst hk
      rw [hjf]
    · have hlt : k < j := lt_of_le_of_ne hkj hk
      have hknt := hpre k (le_refl k) hlt
      cases hs : (getStat k).status
      · exact ih (k + 1) j (by omega) hjt (by omega) hjf
          (fun i h1 h2 => hpre i (by omega) h2)
      · exact ih (k + 1) j (by omega) hjt (by omega) hjf
          (fun i h1 h2 => hpre i (by omega) h2)
      · exact absurd hs hknt.1
      · exact absurd hs hknt.2

/-- Claim C10: at the default pollInterval 2000 ms and maxWaitTime
300000 ms, `waitForCompletion` returns an analysis package only when
some poll observed status completed with no terminal status observed
earlier, and the package is the one `getResults` yields; if it throws
the failure error, a poll observed status failed and the error carries
the error messages of that job; conversely, when the first terminal
status observed within maxWaitTime is failed the call does throw the
failure error with the error messages of that poll, and when it is
completed the call does return the results package (so neither
scenario can time out instead); and if no poll within maxWaitTime
observes a terminal status it throws the timeout error — it never
returns a package for a pending or failed job. -/
theorem wait_for_completion_spec {ε π : Type}
    (getStat : ℕ → StatusResp ε) (results : π) :
    (∀ r, waitForCompletion getStat results 2000 300000 = .ok r →
      r = results ∧ ∃ j, (getStat j).status = .completed ∧
        ∀ i < j, (getStat i).status ≠ .completed ∧
          (getStat i).status ≠ .failed) ∧
    (∀ msgs,
      waitForCompletion getStat results 2000 300000 = .failedErr msgs →
      ∃ j, (getStat j).status = .failed ∧ msgs = (getStat j).errors ∧
        ∀ i < j, (getStat i).status ≠ .completed ∧
          (getStat i).status ≠ .failed) ∧
    (∀ j, j * 2000 < 300000 → (getStat j).status = .failed →
      (∀ i < j, (getStat i).status ≠ .completed ∧
        (getStat i).status ≠ .failed) →
      waitForCompletion getStat results 2000 300000
        = .failedErr (getStat j).errors) ∧
    (∀ j, j * 2000 < 300000 → (getStat j).status = .completed →
      (∀ i < j, (getStat i).status ≠ .completed ∧
        (getStat i).status ≠ .failed) →
      waitForCompletion getStat results 2000 300000 = .ok results) ∧
    ((∀ j, j * 2000 < 300000 → (getStat j).status ≠ .completed ∧
        (getStat j).status ≠ .failed) →
      waitForCompletion getStat results 2000 300000 = .timedOut) := by
  refine ⟨?_, ?_, ?_, ?_, ?_⟩
  · intro r h
    have ⟨hr, j, _, _, hjc, hpre⟩ :=
      pollLoop_ok_elim getStat results 2000 300000 300001 0 r h
    exact ⟨hr, j, hjc, fun i hij => hpre i (Nat.zero_le i) hij⟩
  · intro msgs h
    have ⟨j, _, _, hjf, hmsg, hpre⟩ :=
      pollLoop_failed_elim getStat results 2000 300000 300001 0 msgs h
    exact ⟨j, hjf, hmsg, fun i hij => hpre i (Nat.zero_le i) hij⟩
  · intro j hjt hjf hpre
    exact pollLoop_failed_intro getStat results 2000 300000 300001 0 j
      (Nat.zero_le j) hjt (by omega) hjf (fun i _ h2 => hpre i h2)
  · intro j hjt hjc hpre
    exact pollLoop_completed_intro getStat results 2000 300000 300001 0 j
      (Nat.zero_le j) hjt (by omega) hjc (fun i _ h2 => hpre i h2)
  · intro hnt
    exact pollLoop_timeout_intro getStat results 2000 300000 hnt 300001 0

/-- Witness for C10: on the sample stream (processing, then completed at
poll 1) the call returns the package 7 = `getResults`, poll 1 observed
status completed, and no earlier poll observed a terminal status; on
the failing sample stream (pending, then failed at poll 1) the call
throws the failure error carrying the error messages [42] of poll 1. -/
theorem wait_for_completion_spec_witness :
    ((7 : ℕ) = 7 ∧ ∃ j, (sampleStatusStream j).status = .completed ∧
      ∀ i < j, (sampleStatusStream i).status ≠ .completed ∧
        (sampleStatusStream i).status ≠ .failed) ∧
    waitForCompletion sampleFailStream (7 : ℕ) 2000 300000
      = .failedErr [42] :=
  ⟨(wait_for_completion_spec sampleStatusStream 7).1 7 rfl,
   (wait_for_completion_spec sampleFailStream 7).2.2.1 1 (by norm_num)
     rfl (fun i hi => by
       have h0 : i = 0 := by omega
       subst h0
       exact ⟨by simp [sampleFailStream], by simp [sampleFailStream]⟩)⟩

/-- Claim C8: the guarded CV computation reports `none` — the explicit
undefined flag — for every series whose mean is 0, and reports a
non-negative value for every series whose mean is positive. -/
theorem cv_guarded (values : List ℚ) :
    (meanQ values = 0 → computeCV values = none) ∧
    (0 < meanQ values →
      ∃ c, computeCV values = some c ∧ 0 ≤ c) := by
  constructor
  · intro h
    simp [computeCV, h]
  · intro h
    refine ⟨Real.sqrt (sampleVarQ values) / (meanQ values : ℝ),
      by simp [computeCV, ne_of_gt h], ?_⟩
    apply div_nonneg (Real.sqrt_nonneg _)
    exact_mod_cast le_of_lt h

/-- Witness for C8: the series [1, -1] has mean 0 and its CV is flagged
undefined; the series [1, 3] has mean 2 > 0 and its CV is defined and
non-negative. -/
theorem cv_guarded_witness :
    computeCV [1, -1] = none ∧
    ∃ c, computeCV [1, 3] = some c ∧ 0 ≤ c :=
  ⟨(cv_guarded [1, -1]).1 (by norm_num [meanQ]),
   (cv_guarded [1, 3]).2 (by norm_num [meanQ])⟩

end AadharPulse
